import Mathlib

/-!
Shallow embedding of the cell / circuit / flow-control core of an onion
router, translated from the C sources under src/ (sendme.c, relay.c,
command.c, dns.c).  Machine integers are modelled as Int or Nat; fallible
C paths return Option or an explicit result type.  A handful of constants
live in headers that are not among the provided sources; those are marked
"Modelled from the spec" and taken from the specification text.
-/

namespace Tor

/-- Circuit-close reasons used by the modelled code.  Their numeric values
live in a header outside the provided sources; only the identity of each
reason matters to the properties below, so they are modelled as an
enumeration. -/
inductive CircReason where
  | noneReason
  | torprotocol
  | internal
  | requested
  | hibernating
  | resourcelimit
  | destroyed
  deriving DecidableEq, Repr

/-- Result of a cell-processing function: ok models a 0 return;
err r models returning the negative value -r, telling the caller that the
circuit must be closed with reason r. -/
inductive ProcResult where
  | ok
  | err (reason : CircReason)
  deriving DecidableEq, Repr

/-- Modelled from the spec: CIRCWINDOW_START = 1000 (defined in or.h, which
is not among the provided sources). -/
def CIRCWINDOW_START : Int := 1000

/-- Modelled from the spec: the fixed-alg package window is bounded above by
CIRCWINDOW_START_MAX, equal to the initial window (or.h is not among the
provided sources). -/
def CIRCWINDOW_START_MAX : Int := 1000

/-- Modelled from the spec: CIRCWINDOW_INCREMENT = 100 (or.h is not among
the provided sources). -/
def CIRCWINDOW_INCREMENT : Nat := 100

/-- Modelled from the spec: legacy (Tor1) sendme tag length, 20 bytes
(sendme.h is not among the provided sources). -/
def SENDME_TAG_LEN_TOR1 : Nat := 20

/-- Modelled from the spec: CGO sendme tag length, 16 bytes (sendme.h is
not among the provided sources). -/
def SENDME_TAG_LEN_CGO : Nat := 16

/-- Modelled from the spec: SENDME versions 0 and 1 exist, so the maximum
supported version is 1 (sendme.h is not among the provided sources). -/
def SENDME_MAX_SUPPORTED_VERSION : Nat := 1

/-- A sendme tag / cell digest: a byte sequence. -/
abbrev Tag := List Nat

/-- One hop of an origin circuit (crypt_path_t): the fields used by the
flow-control code.  tagLen models relay_crypto_sendme_tag_len of the hop's
private crypto. -/
structure CryptPath where
  packageWindow : Int
  deliverWindow : Int
  tagLen : Nat
  deriving DecidableEq, Repr

/-- The circuit fields used by the flow-control code (circuit_t plus, for a
non-origin circuit, the or_circuit_t crypto tag length).  sendmeLastDigests
is none when the smartlist is uninitialized (NULL in C). -/
structure Circuit where
  isOrigin : Bool
  packageWindow : Int
  deliverWindow : Int
  tagLen : Nat
  sendmeLastDigests : Option (List Tag)
  deriving DecidableEq, Repr

/-- sendme.c tag_len_ok: true iff the length is one we recognize. -/
def tag_len_ok (tagLen : Nat) : Bool :=
  tagLen == SENDME_TAG_LEN_CGO || tagLen == SENDME_TAG_LEN_TOR1

/-- sendme.c pop_first_cell_digest: pop the first (oldest) recorded digest;
none if the list is uninitialized or empty. -/
def pop_first_cell_digest : Option (List Tag) → Option (Tag × List Tag)
  | Option.none => Option.none
  | some [] => Option.none
  | some (d :: rest) => some (d, rest)

/-- sendme.c v1_tag_matches: compare tagLen bytes of the recorded digest
with the digest carried in the SENDME cell (tor_memneq over tagLen). -/
def v1_tag_matches (circDigest cellTag : List Nat) (tagLen : Nat) : Bool :=
  circDigest.take tagLen == cellTag.take tagLen

/-- sendme.c cell_v1_is_valid, over an already-parsed v1 cell: dataLen is
sendme_cell_get_data_len, cellDigest the data_v1_digest array. -/
def cell_v1_is_valid (dataLen : Nat) (cellDigest : List Nat)
    (circDigest : Tag) (circDigestLen : Nat) : Bool :=
  if ! tag_len_ok dataLen then false
  else if cellDigest.length < dataLen then false
  else if dataLen != circDigestLen then false
  else v1_tag_matches circDigest cellDigest dataLen

/-- sendme.c cell_version_can_be_handled, with the consensus-clamped
value of sendme_accept_min_version passed in as acceptMin. -/
def cell_version_can_be_handled (acceptMin : Nat) (cellVersion : Nat) : Bool :=
  if acceptMin > SENDME_MAX_SUPPORTED_VERSION then false
  else if cellVersion < acceptMin then false
  else if cellVersion > SENDME_MAX_SUPPORTED_VERSION then false
  else true

/-- A received SENDME payload as seen by sendme_is_valid: an empty payload
(version 0), a payload the trunnel parser rejects, or a parsed cell with
its version, data_len field and digest array. -/
inductive SendmePayload where
  | empty
  | unparseable
  | parsed (version : Nat) (dataLen : Nat) (digest : List Nat)
  deriving DecidableEq, Repr

/-- sendme.c sendme_is_valid.  Returns the validity verdict together with
the updated circuit (the oldest recorded digest is popped once control
reaches the pop, regardless of the cell version). -/
def sendme_is_valid (acceptMin : Nat) (circ : Circuit)
    (layerHint : Option CryptPath) (payload : SendmePayload) :
    Bool × Circuit :=
  let versionOpt : Option Nat :=
    match payload with
    | .empty => some 0
    | .unparseable => Option.none
    | .parsed v _ _ => some v
  match versionOpt with
  | Option.none => (false, circ)
  | some v =>
    if ! cell_version_can_be_handled acceptMin v then (false, circ)
    else
      let expectOpt : Option Nat :=
        match layerHint with
        | some lh => some lh.tagLen
        | Option.none =>
          if circ.isOrigin then Option.none else some circ.tagLen
      match expectOpt with
      | Option.none => (false, circ)
      | some expectLen =>
        match pop_first_cell_digest circ.sendmeLastDigests with
        | Option.none => (false, circ)
        | some (circDigest, rest) =>
          let circPopped := { circ with sendmeLastDigests := some rest }
          match v, payload with
          | 1, .parsed _ dataLen cellDigest =>
            (cell_v1_is_valid dataLen cellDigest circDigest expectLen,
             circPopped)
          | _, _ => (true, circPopped)

/-- sendme.c sendme_process_circuit_level_impl: the fixed-window update of
the package window (layer hint on an origin circuit, circuit otherwise). -/
def sendme_process_circuit_level_impl (layerHint : Option CryptPath)
    (circ : Circuit) : ProcResult × Circuit × Option CryptPath :=
  if circ.isOrigin then
    match layerHint with
    | Option.none => (.err .torprotocol, circ, Option.none)
    | some lh =>
      if lh.packageWindow + (CIRCWINDOW_INCREMENT : Int) >
          CIRCWINDOW_START_MAX then
        (.err .torprotocol, circ, some lh)
      else
        (.ok, circ,
         some { lh with
                packageWindow := lh.packageWindow +
                                 (CIRCWINDOW_INCREMENT : Int) })
  else
    if circ.packageWindow + (CIRCWINDOW_INCREMENT : Int) >
        CIRCWINDOW_START_MAX then
      (.err .torprotocol, circ, layerHint)
    else
      (.ok,
       { circ with
         packageWindow := circ.packageWindow + (CIRCWINDOW_INCREMENT : Int) },
       layerHint)

/-- sendme.c sendme_process_circuit_level, for a circuit with no congestion
control object attached (fixed flow control): validate, then run the fixed
window update.  On an invalid SENDME return the TORPROTOCOL error. -/
def sendme_process_circuit_level (acceptMin : Nat)
    (layerHint : Option CryptPath) (circ : Circuit)
    (payload : SendmePayload) : ProcResult × Circuit × Option CryptPath :=
  match sendme_is_valid acceptMin circ layerHint payload with
  | (false, circAfter) => (.err .torprotocol, circAfter, layerHint)
  | (true, circAfter) => sendme_process_circuit_level_impl layerHint circAfter

/-- A v1 cell whose digest does not match the recorded one is invalid,
whatever its length fields are. -/
lemma cell_v1_is_valid_false_of_mismatch {circDigest cellDigest : List Nat}
    {dataLen : Nat} (circDigestLen : Nat)
    (hm : v1_tag_matches circDigest cellDigest dataLen = false) :
    cell_v1_is_valid dataLen cellDigest circDigest circDigestLen = false := by
  unfold cell_v1_is_valid
  split_ifs <;> simp [hm]

/-- Claim C1: for every circuit and received circuit-level SENDME,
processing pops the oldest recorded sendme tag (FIFO, for version 0 and
version 1 alike); a version-1 cell whose tag does not match the popped tag
makes sendme_process_circuit_level return -END_CIRC_REASON_TORPROTOCOL;
for a valid SENDME under fixed flow control the package window (the layer
hint's on an origin circuit, the circuit's otherwise) grows by exactly
CIRCWINDOW_INCREMENT, unless that would exceed CIRCWINDOW_START_MAX, in
which case the function returns -END_CIRC_REASON_TORPROTOCOL and the
window is unchanged.  acceptMin = 0 is the consensus default for
sendme_accept_min_version. -/
theorem sendme_process_circuit_level_spec
    (acceptMin : Nat) (circ : Circuit) (lh : CryptPath)
    (d : Tag) (rest : List Tag) (dataLen : Nat) (cellDigest : List Nat)
    (hacc : acceptMin = 0)
    (hdig : circ.sendmeLastDigests = some (d :: rest)) :
    (circ.isOrigin = false →
      ((sendme_process_circuit_level acceptMin Option.none circ
          .empty).2.1.sendmeLastDigests = some rest
       ∧ (sendme_process_circuit_level acceptMin Option.none circ
          (.parsed 1 dataLen cellDigest)).2.1.sendmeLastDigests = some rest)
      ∧ (v1_tag_matches d cellDigest dataLen = false →
         (sendme_process_circuit_level acceptMin Option.none circ
            (.parsed 1 dataLen cellDigest)).1 = .err .torprotocol)
      ∧ (cell_v1_is_valid dataLen cellDigest d circ.tagLen = true →
          if circ.packageWindow + (CIRCWINDOW_INCREMENT : Int) >
              CIRCWINDOW_START_MAX then
            (sendme_process_circuit_level acceptMin Option.none circ
               (.parsed 1 dataLen cellDigest)).1 = .err .torprotocol
            ∧ (sendme_process_circuit_level acceptMin Option.none circ
               (.parsed 1 dataLen cellDigest)).2.1.packageWindow =
               circ.packageWindow
          else
            (sendme_process_circuit_level acceptMin Option.none circ
               (.parsed 1 dataLen cellDigest)).1 = .ok
            ∧ (sendme_process_circuit_level acceptMin Option.none circ
               (.parsed 1 dataLen cellDigest)).2.1.packageWindow =
               circ.packageWindow + (CIRCWINDOW_INCREMENT : Int)))
    ∧ (circ.isOrigin = true →
      ((sendme_process_circuit_level acceptMin (some lh) circ
          .empty).2.1.sendmeLastDigests = some rest
       ∧ (sendme_process_circuit_level acceptMin (some lh) circ
          (.parsed 1 dataLen cellDigest)).2.1.sendmeLastDigests = some rest)
      ∧ (v1_tag_matches d cellDigest dataLen = false →
         (sendme_process_circuit_level acceptMin (some lh) circ
            (.parsed 1 dataLen cellDigest)).1 = .err .torprotocol)
      ∧ (cell_v1_is_valid dataLen cellDigest d lh.tagLen = true →
          if lh.packageWindow + (CIRCWINDOW_INCREMENT : Int) >
              CIRCWINDOW_START_MAX then
            (sendme_process_circuit_level acceptMin (some lh) circ
               (.parsed 1 dataLen cellDigest)).1 = .err .torprotocol
            ∧ (sendme_process_circuit_level acceptMin (some lh) circ
               (.parsed 1 dataLen cellDigest)).2.2 = some lh
          else
            (sendme_process_circuit_level acceptMin (some lh) circ
               (.parsed 1 dataLen cellDigest)).1 = .ok
            ∧ (sendme_process_circuit_level acceptMin (some lh) circ
               (.parsed 1 dataLen cellDigest)).2.2 =
               some { lh with
                      packageWindow := lh.packageWindow +
                                       (CIRCWINDOW_INCREMENT : Int) })) := by
  subst hacc
  have hc0 : cell_version_can_be_handled 0 0 = true := by decide
  have hc1 : cell_version_can_be_handled 0 1 = true := by decide
  constructor
  · intro ho
    refine ⟨⟨?_, ?_⟩, ?_, ?_⟩
    · simp [sendme_process_circuit_level, sendme_is_valid,
            hc0, hc1,
            pop_first_cell_digest, hdig, ho,
            sendme_process_circuit_level_impl]
      split_ifs <;> simp
    · simp only [sendme_process_circuit_level, sendme_is_valid,
                 hc0, hc1,
                 pop_first_cell_digest, hdig, ho]
      rcases hv : cell_v1_is_valid dataLen cellDigest d circ.tagLen with _ | _ <;>
        simp [hv, sendme_process_circuit_level_impl, ho] <;>
        split_ifs <;> simp
    · intro hm
      have hv := cell_v1_is_valid_false_of_mismatch circ.tagLen hm
      simp [sendme_process_circuit_level, sendme_is_valid,
            hc0, hc1,
            pop_first_cell_digest, hdig, ho, hv]
    · intro hv
      by_cases hw : circ.packageWindow + (CIRCWINDOW_INCREMENT : Int) >
          CIRCWINDOW_START_MAX <;>
        simp [sendme_process_circuit_level, sendme_is_valid, hc0, hc1,
              pop_first_cell_digest, hdig, ho, hv, hw,
              sendme_process_circuit_level_impl]
  · intro ho
    refine ⟨⟨?_, ?_⟩, ?_, ?_⟩
    · simp [sendme_process_circuit_level, sendme_is_valid,
            hc0, hc1,
            pop_first_cell_digest, hdig, ho,
            sendme_process_circuit_level_impl]
      split_ifs <;> simp
    · simp only [sendme_process_circuit_level, sendme_is_valid,
                 hc0, hc1,
                 pop_first_cell_digest, hdig, ho]
      rcases hv : cell_v1_is_valid dataLen cellDigest d lh.tagLen with _ | _ <;>
        simp [hv, sendme_process_circuit_level_impl, ho] <;>
        split_ifs <;> simp
    · intro hm
      have hv := cell_v1_is_valid_false_of_mismatch lh.tagLen hm
      simp [sendme_process_circuit_level, sendme_is_valid,
            hc0, hc1,
            pop_first_cell_digest, hdig, ho, hv]
    · intro hv
      by_cases hw : lh.packageWindow + (CIRCWINDOW_INCREMENT : Int) >
          CIRCWINDOW_START_MAX <;>
        simp [sendme_process_circuit_level, sendme_is_valid, hc0, hc1,
              pop_first_cell_digest, hdig, ho, hv, hw,
              sendme_process_circuit_level_impl]

/-- Witness for C1 at a concrete input: a non-origin circuit with two
recorded tags; receiving a v1 SENDME pops the oldest one. -/
theorem sendme_process_circuit_level_spec_witness :
    (sendme_process_circuit_level 0 Option.none
       ⟨false, 900, 1000, 20, some [List.replicate 20 7, List.replicate 20 9]⟩
       (.parsed 1 20 (List.replicate 20 3))).2.1.sendmeLastDigests =
      some [List.replicate 20 9] :=
  ((sendme_process_circuit_level_spec 0
      ⟨false, 900, 1000, 20, some [List.replicate 20 7, List.replicate 20 9]⟩
      ⟨1000, 1000, 20⟩ (List.replicate 20 7) [List.replicate 20 9] 20
      (List.replicate 20 3) rfl rfl).1 rfl).1.2

/-- Claim C10: a circuit-level SENDME of any version received while the
circuit's recorded-tag list is empty or uninitialized fails validation:
sendme_process_circuit_level returns -END_CIRC_REASON_TORPROTOCOL and
neither the circuit nor the layer hint is updated. -/
theorem sendme_empty_digest_spec
    (acceptMin : Nat) (layerHint : Option CryptPath) (circ : Circuit)
    (payload : SendmePayload)
    (hdig : circ.sendmeLastDigests = Option.none ∨
            circ.sendmeLastDigests = some []) :
    sendme_process_circuit_level acceptMin layerHint circ payload =
      (.err .torprotocol, circ, layerHint) := by
  have hpop : pop_first_cell_digest circ.sendmeLastDigests = Option.none := by
    rcases hdig with h | h <;> simp [pop_first_cell_digest, h]
  have hvalid : sendme_is_valid acceptMin circ layerHint payload =
      (false, circ) := by
    cases payload with
    | unparseable => simp [sendme_is_valid]
    | empty =>
      simp only [sendme_is_valid]
      split
      · rfl
      · cases layerHint with
        | some lh => simp [hpop]
        | none =>
          by_cases ho : circ.isOrigin <;> simp [ho, hpop]
    | parsed v n dg =>
      simp only [sendme_is_valid]
      split
      · rfl
      · cases layerHint with
        | some lh => simp [hpop]
        | none =>
          by_cases ho : circ.isOrigin <;> simp [ho, hpop]
  simp [sendme_process_circuit_level, hvalid]

/-- Witness for C10 at a concrete input: version-0 SENDME on a non-origin
circuit whose tag list was never initialized. -/
theorem sendme_empty_digest_spec_witness :
    sendme_process_circuit_level 0 Option.none
      ⟨false, 1000, 1000, 20, Option.none⟩ .empty =
      (.err .torprotocol, ⟨false, 1000, 1000, 20, Option.none⟩,
       Option.none) :=
  sendme_empty_digest_spec 0 Option.none
    ⟨false, 1000, 1000, 20, Option.none⟩ .empty (Or.inl rfl)

/-- sendme.c sendme_circuit_data_received: on receipt of a RELAY_DATA cell
decrement the circuit-level deliver window (the layer hint's at the origin,
the circuit's otherwise) and return its new value.  none models the
tor_assert on an inconsistent origin / layer-hint combination. -/
def sendme_circuit_data_received (circ : Circuit)
    (layerHint : Option CryptPath) :
    Option (Int × Circuit × Option CryptPath) :=
  if circ.isOrigin then
    match layerHint with
    | some lh =>
      let lh2 := { lh with deliverWindow := lh.deliverWindow - 1 }
      some (lh2.deliverWindow, circ, some lh2)
    | Option.none => Option.none
  else
    match layerHint with
    | Option.none =>
      let c2 := { circ with deliverWindow := circ.deliverWindow - 1 }
      some (c2.deliverWindow, c2, Option.none)
    | some _ => Option.none

/-- Outcome of the RELAY_DATA deliver-window fragment of
connection_edge_process_relay_cell: the return value, the updated state,
and whether the stream was closed with an END of reason TORPROTOCOL. -/
structure DataCellOutcome where
  result : ProcResult
  circ : Circuit
  layerHint : Option CryptPath
  streamEndTorprotocol : Bool
  deriving DecidableEq, Repr

/-- relay.c connection_edge_process_relay_cell, RELAY_DATA window fragment
(lines 2081-2096): decrement the deliver window; if it went below zero,
close the stream with END reason TORPROTOCOL and return
-END_CIRC_REASON_TORPROTOCOL; otherwise processing continues. -/
def connection_edge_process_data_cell (circ : Circuit)
    (layerHint : Option CryptPath) : Option DataCellOutcome :=
  match sendme_circuit_data_received circ layerHint with
  | Option.none => Option.none
  | some (w, c2, l2) =>
    if w < 0 then some ⟨.err .torprotocol, c2, l2, true⟩
    else some ⟨.ok, c2, l2, false⟩

/-- Iterated receipt of RELAY_DATA cells on a non-origin circuit with no
intervening SENDME (so the deliver window is never replenished), stopping
at the first error. -/
def receive_data_cells : Nat → Circuit → ProcResult × Circuit
  | 0, c => (.ok, c)
  | n+1, c =>
    match connection_edge_process_data_cell c Option.none with
    | some o =>
      match o.result with
      | .ok => receive_data_cells n o.circ
      | .err r => (.err r, o.circ)
    | Option.none => (.ok, c)

/-- Receiving more DATA cells than the deliver window allows, with no
intervening SENDME, always ends in the TORPROTOCOL error, with the
deliver window stopped at -1. -/
lemma receive_data_cells_err_of_gt :
    ∀ (n : Nat) (c : Circuit), c.isOrigin = false →
      0 ≤ c.deliverWindow → c.deliverWindow < (n : Int) →
      receive_data_cells n c =
        (.err .torprotocol, { c with deliverWindow := -1 }) := by
  intro n
  induction n with
  | zero =>
    intro c ho h0 hgt
    exact absurd hgt (by omega)
  | succ k ih =>
    intro c ho h0 hgt
    by_cases hneg : c.deliverWindow - 1 < 0
    · have hz : c.deliverWindow = 0 := by omega
      simp [receive_data_cells, connection_edge_process_data_cell,
            sendme_circuit_data_received, ho, hz]
    · have hrec := ih { c with deliverWindow := c.deliverWindow - 1 }
        (by simpa using ho) (by simpa using by omega)
        (by push_cast at hgt ⊢; omega)
      simp only [ho] at hrec
      simp [receive_data_cells, connection_edge_process_data_cell,
            sendme_circuit_data_received, ho, hneg, hrec]

/-- Claim C2: each RELAY_DATA cell received decrements the circuit-level
deliver window (the layer hint's at the origin, the circuit's own
otherwise) by exactly one; if the window becomes negative the processing
function returns -END_CIRC_REASON_TORPROTOCOL (and the stream is closed
with an END of reason TORPROTOCOL); receiving CIRCWINDOW_START + 1 DATA
cells with no intervening SENDME always triggers this teardown. -/
theorem relay_data_deliver_window_spec
    (circ circO : Circuit) (lh : CryptPath)
    (ho : circ.isOrigin = false) (hoO : circO.isOrigin = true) :
    (connection_edge_process_data_cell circ Option.none =
      some ⟨if circ.deliverWindow - 1 < 0 then .err .torprotocol else .ok,
            { circ with deliverWindow := circ.deliverWindow - 1 },
            Option.none,
            if circ.deliverWindow - 1 < 0 then true else false⟩)
    ∧ (connection_edge_process_data_cell circO (some lh) =
      some ⟨if lh.deliverWindow - 1 < 0 then .err .torprotocol else .ok,
            circO,
            some { lh with deliverWindow := lh.deliverWindow - 1 },
            if lh.deliverWindow - 1 < 0 then true else false⟩)
    ∧ (circ.deliverWindow = CIRCWINDOW_START →
       receive_data_cells (CIRCWINDOW_START.toNat + 1) circ =
         (.err .torprotocol, { circ with deliverWindow := -1 })) := by
  refine ⟨?_, ?_, ?_⟩
  · by_cases hneg : circ.deliverWindow - 1 < 0 <;>
      simp [connection_edge_process_data_cell,
            sendme_circuit_data_received, ho, hneg]
  · by_cases hneg : lh.deliverWindow - 1 < 0 <;>
      simp [connection_edge_process_data_cell,
            sendme_circuit_data_received, hoO, hneg]
  · intro hw
    exact receive_data_cells_err_of_gt (CIRCWINDOW_START.toNat + 1) circ ho
      (by rw [hw]; decide) (by rw [hw]; decide)

/-- Witness for C2 at a concrete input: a fresh non-origin circuit with
deliver window CIRCWINDOW_START = 1000 is torn down by the 1001st DATA
cell. -/
theorem relay_data_deliver_window_spec_witness :
    receive_data_cells (CIRCWINDOW_START.toNat + 1)
      ⟨false, 1000, CIRCWINDOW_START, 20, Option.none⟩ =
      (.err .torprotocol,
       ⟨false, 1000, -1, 20, Option.none⟩) :=
  (relay_data_deliver_window_spec
    ⟨false, 1000, CIRCWINDOW_START, 20, Option.none⟩
    ⟨true, 1000, 1000, 20, Option.none⟩ ⟨1000, 1000, 20⟩
    rfl rfl).2.2 rfl

/-- relay.c: minimum allowed value of the circ_max_cell_queue_size
consensus parameter. -/
def RELAY_CIRC_CELL_QUEUE_SIZE_MIN : Int := 50

/-- relay.c: maximum allowed value of the parameter (INT32_MAX). -/
def RELAY_CIRC_CELL_QUEUE_SIZE_MAX : Int := 2147483647

/-- relay.c: default queue maximum, 50 * RELAY_CIRC_CELL_QUEUE_SIZE_MIN. -/
def RELAY_CIRC_CELL_QUEUE_SIZE_DEFAULT : Int :=
  50 * RELAY_CIRC_CELL_QUEUE_SIZE_MIN

/-- Modelled from the spec: networkstatus_get_param (networkstatus.c is not
among the provided sources) returns the consensus value clamped to
[minVal, maxVal], or the default when the parameter is absent. -/
def networkstatus_get_param (ns : Option Int)
    (defaultVal minVal maxVal : Int) : Int :=
  match ns with
  | Option.none => defaultVal
  | some v => max minVal (min v maxVal)

/-- relay.c get_param_max_circuit_cell_queue_size. -/
def get_param_max_circuit_cell_queue_size (ns : Option Int) : Int :=
  networkstatus_get_param ns RELAY_CIRC_CELL_QUEUE_SIZE_DEFAULT
    RELAY_CIRC_CELL_QUEUE_SIZE_MIN RELAY_CIRC_CELL_QUEUE_SIZE_MAX

/-- Direction a cell travels on a circuit. -/
inductive CellDirection where
  | dirIn
  | dirOut
  deriving DecidableEq, Repr

/-- The circuit fields consulted by append_cell_to_circuit_queue; the two
queue counts model n_chan_cells.n and p_chan_cells.n. -/
structure QueueCirc where
  markedForClose : Bool
  isOrigin : Bool
  nChanCells : Nat
  pChanCells : Nat
  deriving DecidableEq, Repr

/-- Queue count of the given direction (n_chan_cells outbound,
p_chan_cells inbound). -/
def queueCount (circ : QueueCirc) : CellDirection → Nat
  | .dirOut => circ.nChanCells
  | .dirIn => circ.pChanCells

/-- Queue maximum of the given direction (max_circuit_cell_queue_size_out
outbound, max_circuit_cell_queue_size inbound). -/
def queue_limit (maxOut maxIn : Int) : CellDirection → Int
  | .dirOut => maxOut
  | .dirIn => maxIn

/-- relay.c append_cell_to_circuit_queue.  maxOut / maxIn are the
consensus-driven per-direction maxima; oomClosesCirc abstracts the
cell_queues_check_size step (true iff the global OOM handler ran and
closed this circuit).  none models the TO_OR_CIRCUIT assertion (inbound
direction on an origin circuit). -/
def append_cell_to_circuit_queue (maxOut maxIn : Int) (oomClosesCirc : Bool)
    (circ : QueueCirc) (dir : CellDirection) : Option (Int × QueueCirc) :=
  if circ.markedForClose then some (0, circ)
  else
    match dir with
    | .dirOut =>
      if (circ.nChanCells : Int) ≥ maxOut then some (-1, circ)
      else
        let circ2 := { circ with nChanCells := circ.nChanCells + 1 }
        if oomClosesCirc then some (0, { circ2 with markedForClose := true })
        else some (1, circ2)
    | .dirIn =>
      if circ.isOrigin then Option.none
      else if (circ.pChanCells : Int) ≥ maxIn then some (-1, circ)
      else
        let circ2 := { circ with pChanCells := circ.pChanCells + 1 }
        if oomClosesCirc then some (0, { circ2 with markedForClose := true })
        else some (1, circ2)

/-- Claim C3: appending to a per-direction queue that already holds
max_queue_size cells returns the fatal -1 without appending, so the count
never exceeds the maximum; appending to a shorter queue on a circuit not
marked for close (and not closed by the OOM handler) succeeds, returns 1,
and grows the count by exactly one; the consensus default maximum is
2500. -/
theorem append_cell_queue_bound_spec
    (maxOut maxIn : Int) (oom : Bool) (circ : QueueCirc)
    (dir : CellDirection)
    (hm : circ.markedForClose = false)
    (hdir : dir = .dirIn → circ.isOrigin = false) :
    ((queueCount circ dir : Int) ≥ queue_limit maxOut maxIn dir →
      append_cell_to_circuit_queue maxOut maxIn oom circ dir =
        some (-1, circ))
    ∧ ((queueCount circ dir : Int) < queue_limit maxOut maxIn dir →
       oom = false →
       ∃ circ2, append_cell_to_circuit_queue maxOut maxIn oom circ dir =
          some (1, circ2) ∧ queueCount circ2 dir = queueCount circ dir + 1)
    ∧ (∀ r circ2,
        append_cell_to_circuit_queue maxOut maxIn oom circ dir =
          some (r, circ2) →
        (queueCount circ dir : Int) ≤ queue_limit maxOut maxIn dir →
        (queueCount circ2 dir : Int) ≤ queue_limit maxOut maxIn dir)
    ∧ get_param_max_circuit_cell_queue_size Option.none = 2500 := by
  refine ⟨?_, ?_, ?_, by decide⟩
  · intro hfull
    cases dir with
    | dirOut =>
      simp only [queueCount, queue_limit] at hfull
      simp [append_cell_to_circuit_queue, hm, hfull]
    | dirIn =>
      simp only [queueCount, queue_limit] at hfull
      simp [append_cell_to_circuit_queue, hm, hfull, hdir rfl]
  · intro hlt hoom
    subst hoom
    cases dir with
    | dirOut =>
      simp only [queueCount, queue_limit] at hlt
      refine ⟨{ circ with nChanCells := circ.nChanCells + 1 }, ?_, ?_⟩
      · simp [append_cell_to_circuit_queue, hm, not_le.mpr hlt]
      · simp [queueCount]
    | dirIn =>
      simp only [queueCount, queue_limit] at hlt
      refine ⟨{ circ with pChanCells := circ.pChanCells + 1 }, ?_, ?_⟩
      · simp [append_cell_to_circuit_queue, hm, hdir rfl, not_le.mpr hlt]
      · simp [queueCount]
  · intro r circ2 happ hle
    cases dir with
    | dirOut =>
      simp only [append_cell_to_circuit_queue, hm] at happ
      simp only [queueCount, queue_limit] at hle ⊢
      by_cases hfull : (circ.nChanCells : Int) ≥ maxOut
      · simp [hfull] at happ
        simp [← happ.2]
        exact hle
      · simp [hfull] at happ
        cases oom with
        | true => simp at happ; rw [← happ.2]; simp; omega
        | false => simp at happ; rw [← happ.2]; simp; omega
    | dirIn =>
      simp only [append_cell_to_circuit_queue, hm, hdir rfl] at happ
      simp only [queueCount, queue_limit] at hle ⊢
      by_cases hfull : (circ.pChanCells : Int) ≥ maxIn
      · simp [hfull] at happ
        simp [← happ.2]
        exact hle
      · simp [hfull] at happ
        cases oom with
        | true => simp at happ; rw [← happ.2]; simp; omega
        | false => simp at happ; rw [← happ.2]; simp; omega

/-- Witness for C3 at a concrete input: a full outbound queue (2500 cells
at the default maximum) makes the append fatal. -/
theorem append_cell_queue_bound_spec_witness :
    append_cell_to_circuit_queue 2500 2500 false
      ⟨false, false, 2500, 0⟩ .dirOut = some (-1, ⟨false, false, 2500, 0⟩) :=
  (append_cell_queue_bound_spec 2500 2500 false ⟨false, false, 2500, 0⟩
    .dirOut rfl (fun h => by cases h)).1 (by decide)

/-- Who allocates high circuit ids on this channel
(channel->circ_id_type). -/
inductive CircIdType where
  | higher
  | lower
  | neither
  deriving DecidableEq, Repr

/-- The channel / node state consulted by the validation part of
command_process_create_cell. -/
structure CreateEnv where
  wideCircIds : Bool
  circIdType : CircIdType
  circIdInUse : Bool
  hibernating : Bool
  dosRefuseCell : Bool
  serverMode : Bool
  publicServerMode : Bool
  chanIsOutgoing : Bool
  deriving DecidableEq, Repr

/-- What command_process_create_cell does with an incoming CREATE cell. -/
inductive CreateAction where
  | dropSilently
  | sendDestroy (reason : CircReason)
  | proceed
  deriving DecidableEq, Repr

/-- command.c command_process_create_cell, the validation sequence that
runs before or_circuit_new: proceed means a new circuit is allocated and
entered in the circuit table; in every other case no circuit is
created. -/
def command_process_create_cell (env : CreateEnv) (circId : Nat) :
    CreateAction :=
  if circId == 0 then .dropSilently
  else if env.circIdInUse then .dropSilently
  else if env.hibernating then .sendDestroy .hibernating
  else if env.dosRefuseCell then .sendDestroy .resourcelimit
  else if !env.serverMode ||
          (!env.publicServerMode && env.chanIsOutgoing) then
    .sendDestroy .torprotocol
  else
    let idIsHigh :=
      if env.wideCircIds then circId.testBit 31 else circId.testBit 15
    if (idIsHigh && env.circIdType == .higher) ||
       (!idIsHigh && env.circIdType == .lower) then
      .sendDestroy .torprotocol
    else .proceed

/-- Claim C4: a CREATE-family cell with circuit id 0 is dropped silently
(no DESTROY, no circuit) whatever the node state; on a normally operating
server (id not in use, not hibernating, no DoS defense, server mode, not a
client-originated outgoing channel) a cell whose circuit-id high bit (bit
31 on wide channels, bit 15 otherwise) clashes with the channel's
circ_id_type gets a DESTROY of reason TORPROTOCOL back; in neither case is
a circuit created or entered in the table (the action is not proceed). -/
theorem create_cell_validation_spec (env : CreateEnv) (circId : Nat)
    (hnu : env.circIdInUse = false) (hh : env.hibernating = false)
    (hd : env.dosRefuseCell = false) (hs : env.serverMode = true)
    (hcl : env.publicServerMode = true ∨ env.chanIsOutgoing = false) :
    (∀ envAny : CreateEnv,
      command_process_create_cell envAny 0 = .dropSilently)
    ∧ (circId ≠ 0 →
       (((if env.wideCircIds then circId.testBit 31
          else circId.testBit 15) = true ∧ env.circIdType = .higher) ∨
        ((if env.wideCircIds then circId.testBit 31
          else circId.testBit 15) = false ∧ env.circIdType = .lower)) →
       command_process_create_cell env circId = .sendDestroy .torprotocol)
    ∧ (∀ envAny : CreateAction,
        envAny = .dropSilently ∨ envAny = .sendDestroy .torprotocol →
        envAny ≠ .proceed) := by
  refine ⟨?_, ?_, ?_⟩
  · intro envAny
    simp [command_process_create_cell]
  · intro hnz hclash
    have hserver : (!env.serverMode ||
        (!env.publicServerMode && env.chanIsOutgoing)) = false := by
      rcases hcl with h | h <;> simp [hs, h]
    rcases hclash with ⟨hbit, hty⟩ | ⟨hbit, hty⟩ <;>
      simp [command_process_create_cell, hnz, hnu, hh, hd, hserver,
            hbit, hty]
  · rintro a (rfl | rfl) <;> simp

/-- Witness for C4 at a concrete input: on a responding server whose
channel allocates the high ids, a narrow-channel CREATE with the id high
bit set (id 0x8001) is answered by DESTROY(TORPROTOCOL). -/
theorem create_cell_validation_spec_witness :
    command_process_create_cell
      ⟨false, .higher, false, false, false, true, true, false⟩ 32769 =
      .sendDestroy .torprotocol :=
  (create_cell_validation_spec
    ⟨false, .higher, false, false, false, true, true, false⟩ 32769
    rfl rfl rfl rfl (Or.inl rfl)).2.1 (by decide)
    (Or.inl (by constructor <;> decide))

/-- Result of relay_decrypt_cell as seen by circuit_receive_relay_cell. -/
inductive DecryptOutcome where
  | ok (recognized : Bool) (layerHint : Option CryptPath)
  | fail
  deriving DecidableEq, Repr

/-- What the entry of circuit_receive_relay_cell does with a cell, up to
the point where a successfully decrypted cell is handed on: done carries
the return value and the reason passed to circuit_mark_for_close (if
any); continues means the cell goes on to recognition / relaying. -/
inductive ReceiveStep where
  | done (result : ProcResult) (marked : Option CircReason)
  | continues (recognized : Bool) (layerHint : Option CryptPath)
  deriving DecidableEq, Repr

/-- relay.c circuit_receive_relay_cell, entry fragment (lines 251-260): a
circuit already marked for close ignores the cell (return 0); a failed
layer decryption sets reason = -END_CIRC_REASON_INTERNAL and jumps to the
error path, which marks the circuit for close with reason INTERNAL and
returns the negative reason. -/
def circuit_receive_relay_cell_entry (markedForClose : Bool)
    (dec : DecryptOutcome) : ReceiveStep :=
  if markedForClose then .done .ok Option.none
  else
    match dec with
    | .fail => .done (.err .internal) (some .internal)
    | .ok recognized layerHint => .continues recognized layerHint

/-- Counterexample to claim C5 as stated: on a circuit not marked for
close, a failed layer decryption closes the circuit with reason INTERNAL,
not TORPROTOCOL, and returns -END_CIRC_REASON_INTERNAL. -/
theorem relay_decrypt_fail_reason_cex :
    circuit_receive_relay_cell_entry false .fail =
      .done (.err .internal) (some .internal)
    ∧ circuit_receive_relay_cell_entry false .fail ≠
      .done (.err .torprotocol) (some .torprotocol)
    ∧ CircReason.internal ≠ CircReason.torprotocol := by
  refine ⟨rfl, ?_, ?_⟩ <;> decide

/-- Claim C5 (amended): for every relay cell received on a circuit not
marked for close, a failed per-direction layer decryption recognises no
cell; circuit_receive_relay_cell marks the circuit for close as an
internal error (reason INTERNAL, not TORPROTOCOL) and returns the
negative reason -END_CIRC_REASON_INTERNAL. -/
theorem relay_decrypt_fail_internal_spec (marked : Bool)
    (hm : marked = false) :
    circuit_receive_relay_cell_entry marked .fail =
      .done (.err .internal) (some .internal) := by
  subst hm; rfl

/-- Witness for C5 (amended) at the concrete input. -/
theorem relay_decrypt_fail_internal_spec_witness :
    circuit_receive_relay_cell_entry false .fail =
      .done (.err .internal) (some .internal) :=
  relay_decrypt_fail_internal_spec false rfl

/-- Where a DESTROY cell arrived relative to the circuit: fromPSide models
"chan == p_chan and circ_id == p_circ_id" on a relay circuit. -/
structure DestroyCtx where
  isOrigin : Bool
  fromPSide : Bool
  deriving DecidableEq, Repr

/-- The state changes command_process_destroy_cell performs, in order.
markCloseRemote b models circuit_mark_for_close(circ, b |
END_CIRC_REASON_FLAG_REMOTE), recording the remote reason byte locally. -/
inductive DestroyAction where
  | setReceivedDestroy
  | nullifyP
  | nullifyN
  | markCloseLocal (reason : CircReason)
  | markCloseRemote (reasonByte : Nat)
  deriving DecidableEq, Repr

/-- command.c command_process_destroy_cell for a known circuit, as the
ordered list of state changes it performs (lines 652-691). -/
def command_process_destroy_cell (ctx : DestroyCtx) (reasonByte : Nat) :
    List DestroyAction :=
  .setReceivedDestroy ::
  (if !ctx.isOrigin && ctx.fromPSide then
    [.nullifyP, .markCloseLocal .destroyed]
  else
    .nullifyN ::
    (if ctx.isOrigin then [.markCloseRemote reasonByte]
     else [.markCloseLocal .destroyed]))

/-- Claim C6: a DESTROY on a relay circuit's p side nullifies
p_chan/p_circ_id before marking for close, and closes with reason
DESTROYED; a DESTROY from ahead on a non-origin circuit nullifies n_chan
and also closes with DESTROYED, so the received reason byte is never
re-propagated (the non-origin behaviour is independent of the byte); only
an origin circuit records the remote reason, flagged as remote. -/
theorem destroy_cell_spec (ctx : DestroyCtx) (b b2 : Nat) :
    (ctx.isOrigin = false → ctx.fromPSide = true →
      command_process_destroy_cell ctx b =
        [.setReceivedDestroy, .nullifyP, .markCloseLocal .destroyed])
    ∧ (ctx.isOrigin = false → ctx.fromPSide = false →
      command_process_destroy_cell ctx b =
        [.setReceivedDestroy, .nullifyN, .markCloseLocal .destroyed])
    ∧ (ctx.isOrigin = true →
      command_process_destroy_cell ctx b =
        [.setReceivedDestroy, .nullifyN, .markCloseRemote b])
    ∧ (ctx.isOrigin = false →
      command_process_destroy_cell ctx b =
        command_process_destroy_cell ctx b2) := by
  refine ⟨?_, ?_, ?_, ?_⟩
  · intro ho hp
    simp [command_process_destroy_cell, ho, hp]
  · intro ho hp
    simp [command_process_destroy_cell, ho, hp]
  · intro ho
    simp [command_process_destroy_cell, ho]
  · intro ho
    by_cases hp : ctx.fromPSide <;>
      simp [command_process_destroy_cell, ho, hp]

/-- Witness for C6 at a concrete input: a DESTROY with reason byte 7
arriving on the p side of a relay circuit. -/
theorem destroy_cell_spec_witness :
    command_process_destroy_cell ⟨false, true⟩ 7 =
      [.setReceivedDestroy, .nullifyP, .markCloseLocal .destroyed] :=
  (destroy_cell_spec ⟨false, true⟩ 7 0).1 rfl rfl

/-- Modelled from the spec: at most 8 RELAY_EARLY cells may ever be sent
on a circuit (MAX_RELAY_EARLY_CELLS_PER_CIRCUIT lives in a header that is
not among the provided sources). -/
def MAX_RELAY_EARLY_CELLS_PER_CIRCUIT : Nat := 8

/-- Outcome of the RELAY_EARLY bookkeeping in command_process_relay_cell:
either the circuit is closed with TORPROTOCOL, or processing proceeds
with the new remaining_relay_early_cells count. -/
inductive RelayEarlyStep where
  | closeTorprotocol
  | proceed (remaining : Nat)
  deriving DecidableEq, Repr

/-- command.c command_process_relay_cell, RELAY_EARLY fragment (lines
547-582): an inbound RELAY_EARLY closes the circuit with TORPROTOCOL; an
outbound one at a relay is accepted only while
remaining_relay_early_cells > 0, which it decrements. -/
def command_process_relay_early_check (direction : CellDirection)
    (isRelayEarly : Bool) (remaining : Nat) : RelayEarlyStep :=
  if isRelayEarly then
    match direction with
    | .dirIn => .closeTorprotocol
    | .dirOut =>
      if remaining == 0 then .closeTorprotocol
      else .proceed (remaining - 1)
  else .proceed remaining

/-- Origin-side RELAY_EARLY budget
(remaining_relay_early_cells, relay_early_cells_sent). -/
structure EarlyState where
  remaining : Nat
  sent : Nat
  deriving DecidableEq, Repr

/-- One outbound relay command sent from the edge of an origin circuit:
its relay command and whether its target hop is the first hop. -/
structure EdgeSend where
  command : Nat
  toFirstHop : Bool
  deriving DecidableEq, Repr

/-- Relay command EXTEND. -/
def RELAY_COMMAND_EXTEND : Nat := 6

/-- Relay command EXTEND2. -/
def RELAY_COMMAND_EXTEND2 : Nat := 14

/-- relay.c relay_send_command_from_edge_, RELAY_EARLY fragment (lines
677-696), outbound on an origin circuit: with budget left, an EXTEND /
EXTEND2 or a command for a later hop goes out as a RELAY_EARLY cell,
decrementing the budget and counting the cell as sent. -/
def relay_send_early_step (st : EarlyState) (send : EdgeSend) :
    Bool × EarlyState :=
  if 0 < st.remaining ∧
     (send.command = RELAY_COMMAND_EXTEND ∨
      send.command = RELAY_COMMAND_EXTEND2 ∨ send.toFirstHop = false) then
    (true, ⟨st.remaining - 1, st.sent + 1⟩)
  else
    (false, st)

/-- Run a sequence of outbound edge sends through the RELAY_EARLY
budget. -/
def relay_send_early_run (st : EarlyState) : List EdgeSend → EarlyState
  | [] => st
  | send :: rest =>
    relay_send_early_run (relay_send_early_step st send).2 rest

/-- The sum sent + remaining is preserved by any sequence of sends. -/
lemma relay_send_early_run_sum (sends : List EdgeSend) :
    ∀ st : EarlyState,
      (relay_send_early_run st sends).sent +
        (relay_send_early_run st sends).remaining =
        st.sent + st.remaining := by
  induction sends with
  | nil => intro st; rfl
  | cons send rest ih =>
    intro st
    simp only [relay_send_early_run]
    rw [ih]
    unfold relay_send_early_step
    split_ifs with h
    · obtain ⟨hpos, -⟩ := h
      show st.sent + 1 + (st.remaining - 1) = st.sent + st.remaining
      omega
    · rfl

/-- Claim C7: an inbound RELAY_EARLY cell closes the circuit with reason
TORPROTOCOL; an outbound RELAY_EARLY at a relay with an exhausted budget
closes the circuit with TORPROTOCOL, and otherwise decrements
remaining_relay_early_cells by one; on an origin circuit a cell goes out
as RELAY_EARLY only while the budget is positive and decrements it, so at
most MAX_RELAY_EARLY_CELLS_PER_CIRCUIT (8) RELAY_EARLY cells are ever
sent. -/
theorem relay_early_spec (remaining : Nat) (sends : List EdgeSend)
    (st : EarlyState) (send : EdgeSend) :
    (command_process_relay_early_check .dirIn true remaining =
      .closeTorprotocol)
    ∧ (command_process_relay_early_check .dirOut true 0 =
      .closeTorprotocol)
    ∧ (0 < remaining →
       command_process_relay_early_check .dirOut true remaining =
         .proceed (remaining - 1))
    ∧ ((relay_send_early_step st send).1 = true →
       0 < st.remaining ∧
       (relay_send_early_step st send).2.remaining = st.remaining - 1 ∧
       (relay_send_early_step st send).2.sent = st.sent + 1)
    ∧ (relay_send_early_run ⟨MAX_RELAY_EARLY_CELLS_PER_CIRCUIT, 0⟩
        sends).sent ≤ MAX_RELAY_EARLY_CELLS_PER_CIRCUIT := by
  refine ⟨rfl, rfl, ?_, ?_, ?_⟩
  · intro hpos
    have hnz : (remaining == 0) = false := by
      simp [Nat.pos_iff_ne_zero.mp hpos]
    simp [command_process_relay_early_check, hnz]
  · intro hsent
    unfold relay_send_early_step at hsent ⊢
    split_ifs with h
    · exact ⟨h.1, rfl, rfl⟩
    · rw [if_neg h] at hsent
      simp at hsent
  · have hsum : (relay_send_early_run ⟨MAX_RELAY_EARLY_CELLS_PER_CIRCUIT, 0⟩
        sends).sent +
        (relay_send_early_run ⟨MAX_RELAY_EARLY_CELLS_PER_CIRCUIT, 0⟩
        sends).remaining = MAX_RELAY_EARLY_CELLS_PER_CIRCUIT := by
      simpa using relay_send_early_run_sum sends
        ⟨MAX_RELAY_EARLY_CELLS_PER_CIRCUIT, 0⟩
    omega

/-- Witness for C7 at a concrete input: with a budget of 3 left, an
outbound RELAY_EARLY is accepted and leaves 2. -/
theorem relay_early_spec_witness :
    command_process_relay_early_check .dirOut true 3 = .proceed 2 :=
  (relay_early_spec 3 [] ⟨8, 0⟩ ⟨6, true⟩).2.2.1 (by decide)

/-- relay.c RELAY_CELL_PADDING_GAP (line 2232). -/
def RELAY_CELL_PADDING_GAP : Nat := 4

/-- The two circuit fields driving sendme-randomness injection. -/
structure RandState where
  sendRandomnessAfterNCells : Nat
  haveSentSufficientlyRandomCell : Bool
  deriving DecidableEq, Repr

/-- The epoch length chosen by circuit_reset_sendme_randomness as a
function of the rng sample r, which crypto_fast_rng_get_uint draws
uniformly from [0, CIRCWINDOW_INCREMENT / 2). -/
def reset_epoch_length (r : Nat) : Nat := CIRCWINDOW_INCREMENT / 2 + r

/-- relay.c circuit_reset_sendme_randomness (lines 2201-2208): clear the
sufficiently-random flag and pick a fresh epoch
CIRCWINDOW_INCREMENT / 2 + r. -/
def circuit_reset_sendme_randomness (r : Nat) (st : RandState) :
    RandState :=
  { haveSentSufficientlyRandomCell := false,
    sendRandomnessAfterNCells := reset_epoch_length r }

/-- relay.c connection_edge_get_inbuf_bytes_to_package (lines 2214-2273):
how many inbuf bytes go into the next DATA cell.  maxPayload models
relay_cell_max_payload_size for the circuit's format; r is the rng sample
used if the randomness epoch is reset; partialOk is package_partial. -/
def connection_edge_get_inbuf_bytes_to_package (maxPayload : Nat) (r : Nat)
    (nAvailable : Nat) (partialOk : Bool) (st : RandState) :
    Nat × RandState :=
  if nAvailable = 0 then (0, st)
  else
    let forceRandomBytes :=
      st.sendRandomnessAfterNCells = 0 ∧
      st.haveSentSufficientlyRandomCell = false
    let targetLengthWithRandom := maxPayload - RELAY_CELL_PADDING_GAP - 16
    let targetLength :=
      if forceRandomBytes then targetLengthWithRandom else maxPayload
    if nAvailable ≥ targetLength ∨ partialOk = true then
      let packageLength := min targetLength nAvailable
      let st1 :=
        if packageLength ≤ targetLengthWithRandom then
          { st with haveSentSufficientlyRandomCell := true }
        else st
      let st2 :=
        if st1.sendRandomnessAfterNCells = 0 then
          circuit_reset_sendme_randomness r st1
        else st1
      (packageLength,
       { st2 with
         sendRandomnessAfterNCells := st2.sendRandomnessAfterNCells - 1 })
    else (0, st)

/-- Counterexample to claim C8 as stated: the epoch chosen at a reset is
CIRCWINDOW_INCREMENT/2 + r with r uniform below CIRCWINDOW_INCREMENT/2,
so the sum over the 50 equiprobable outcomes is 3725 (an average of 74.5
cells), not 50 * 50 = 2500 (an average of CIRCWINDOW_INCREMENT/2 = 50). -/
theorem sendme_randomness_average_cex :
    ((List.range (CIRCWINDOW_INCREMENT / 2)).map reset_epoch_length).sum =
      3725
    ∧ (CIRCWINDOW_INCREMENT / 2) * (CIRCWINDOW_INCREMENT / 2) = 2500
    ∧ ((List.range (CIRCWINDOW_INCREMENT / 2)).map
        reset_epoch_length).sum ≠
      (CIRCWINDOW_INCREMENT / 2) * (CIRCWINDOW_INCREMENT / 2) := by
  refine ⟨by decide, by decide, by decide⟩

/-- Claim C8 (amended): the epoch chosen at each reset is
CIRCWINDOW_INCREMENT/2 + r with r drawn uniformly from
[0, CIRCWINDOW_INCREMENT/2), so it lies in [CIRCWINDOW_INCREMENT/2,
CIRCWINDOW_INCREMENT - 1] and averages 74.5 cells (twice the sum over the
50 equiprobable outcomes is 149 * 50), not CIRCWINDOW_INCREMENT/2; when
the counter reaches 0 without a sufficiently random cell having been
sent, the next packaged DATA cell's payload is limited to maxPayload -
RELAY_CELL_PADDING_GAP - 16 bytes. -/
theorem sendme_randomness_spec (r nAvailable maxPayload : Nat)
    (partialOk : Bool) (st : RandState)
    (hr : r < CIRCWINDOW_INCREMENT / 2)
    (hmax : 20 ≤ maxPayload) :
    (reset_epoch_length r = CIRCWINDOW_INCREMENT / 2 + r
     ∧ CIRCWINDOW_INCREMENT / 2 ≤ reset_epoch_length r
     ∧ reset_epoch_length r ≤ CIRCWINDOW_INCREMENT - 1)
    ∧ 2 * ((List.range (CIRCWINDOW_INCREMENT / 2)).map
        reset_epoch_length).sum = 149 * (CIRCWINDOW_INCREMENT / 2)
    ∧ (circuit_reset_sendme_randomness r st).sendRandomnessAfterNCells =
        reset_epoch_length r
    ∧ (st.sendRandomnessAfterNCells = 0 →
       st.haveSentSufficientlyRandomCell = false →
       0 < nAvailable →
       (connection_edge_get_inbuf_bytes_to_package maxPayload r nAvailable
          partialOk st).1 ≤ maxPayload - RELAY_CELL_PADDING_GAP - 16) := by
  refine ⟨⟨rfl, ?_, ?_⟩, by decide, rfl, ?_⟩
  · simp [reset_epoch_length]
  · simp only [reset_epoch_length, CIRCWINDOW_INCREMENT] at hr ⊢
    omega
  · intro h0 hsent hn
    have hne : ¬ nAvailable = 0 := by omega
    simp only [connection_edge_get_inbuf_bytes_to_package]
    rw [if_neg hne,
        if_pos (show st.sendRandomnessAfterNCells = 0 ∧
            st.haveSentSufficientlyRandomCell = false from ⟨h0, hsent⟩)]
    by_cases hgo : nAvailable ≥ maxPayload - RELAY_CELL_PADDING_GAP - 16 ∨
        partialOk = true
    · rw [if_pos hgo]
      exact Nat.min_le_left _ _
    · rw [if_neg hgo]
      exact Nat.zero_le _

/-- Witness for C8 (amended) at a concrete input: with the counter at 0
and no sufficiently random cell sent yet, a full inbuf on a 498-byte
payload format is packaged into at most 478 bytes. -/
theorem sendme_randomness_spec_witness :
    (connection_edge_get_inbuf_bytes_to_package 498 0 1000 false
       ⟨0, false⟩).1 ≤ 498 - RELAY_CELL_PADDING_GAP - 16 :=
  (sendme_randomness_spec 0 1000 498 false ⟨0, false⟩ (by decide)
    (by decide)).2.2.2 rfl rfl (by decide)

/-- dns.c RESOLVE_MAX_TIMEOUT (line 87): seconds before a resolve is
considered wedged. -/
def RESOLVE_MAX_TIMEOUT : Int := 300

/-- State of a cached DNS resolve (dns.c cached_resolve_t.state). -/
inductive CacheState where
  | pending
  | cached
  | done
  deriving DecidableEq, Repr

/-- dns.c cached_resolve_t: the fields used by dns_resolve_impl; pending
connections are edge-connection identifiers. -/
structure CachedResolve where
  address : String
  state : CacheState
  pendingConnections : List Nat
  expire : Int
  deriving DecidableEq, Repr

/-- The DNS cache hash map, modelled as a list of records with distinct
addresses. -/
abbrev DnsCache := List CachedResolve

/-- dns.c purge_expired_resolves: remove every record whose expire time is
at or before now. -/
def purge_expired_resolves (now : Int) (cache : DnsCache) : DnsCache :=
  cache.filter (fun entry => now < entry.expire)

/-- Hash-table lookup by address (HT_FIND on the address key). -/
def dns_cache_lookup (cache : DnsCache) (addr : String) :
    Option CachedResolve :=
  cache.find? (fun entry => entry.address == addr)

/-- Replace the record stored under the given address. -/
def dns_cache_replace (cache : DnsCache) (addr : String)
    (newRec : CachedResolve) : DnsCache :=
  cache.map (fun entry => if entry.address == addr then newRec else entry)

/-- Outcome of the cache step of dns_resolve_impl. -/
inductive DnsResolveOutcome where
  | attachedPending
  | cachedHit
  | launchedNew (launchResult : Int)
  deriving DecidableEq, Repr

/-- dns.c dns_resolve_impl, cache step (lines 763-854), for a request that
passed the IP-literal / exit-policy / PTR checks: purge expired records
and look the address up; on a pending hit attach the connection to
pending_connections and return 0 without launching anything; on a cached
hit answer from the cache; on a miss insert a Pending record with expiry
now + RESOLVE_MAX_TIMEOUT and call launch_resolve exactly once
(launchResult models its return value).  The Nat component counts the
calls to launch_resolve; Option.none models the assertion tripped by a
DONE record in the map. -/
def dns_resolve_impl (now launchResult : Int) (conn : Nat) (addr : String)
    (cache : DnsCache) : Option (DnsResolveOutcome × DnsCache × Nat) :=
  let cache1 := purge_expired_resolves now cache
  match dns_cache_lookup cache1 addr with
  | some found =>
    match found.state with
    | .pending =>
      let upd := { found with
                   pendingConnections := conn :: found.pendingConnections }
      some (.attachedPending, dns_cache_replace cache1 addr upd, 0)
    | .cached => some (.cachedHit, cache1, 0)
    | .done => Option.none
  | Option.none =>
    let newRec : CachedResolve :=
      { address := addr, state := .pending, pendingConnections := [conn],
        expire := now + RESOLVE_MAX_TIMEOUT }
    some (.launchedNew launchResult, newRec :: cache1, 1)

/-- Looking up an address after replacing its record finds the new
record, provided the new record keeps the address. -/
lemma dns_cache_lookup_replace (addr : String) (newRec : CachedResolve)
    (haddr : (newRec.address == addr) = true) :
    ∀ (cache : DnsCache) (found : CachedResolve),
      dns_cache_lookup cache addr = some found →
      dns_cache_lookup (dns_cache_replace cache addr newRec) addr =
        some newRec := by
  intro cache
  induction cache with
  | nil =>
    intro found h
    simp [dns_cache_lookup] at h
  | cons entry rest ih =>
    intro found h
    simp only [dns_cache_lookup, dns_cache_replace, List.map_cons] at h ⊢
    by_cases he : (entry.address == addr) = true
    · rw [if_pos he]
      exact List.find?_cons_of_pos _ haddr
    · have he2 : (entry.address == addr) = false := by simpa using he
      rw [if_neg he]
      simp only [List.find?_cons, he2] at h ⊢
      exact ih found h

/-- Claim C9: a resolve request whose address is found Pending (and not
expired) in the exit DNS cache is coalesced: the connection is attached to
the record's pending_connections and the function returns 0 with no new
query launched; on a miss, a Pending record expiring at
now + RESOLVE_MAX_TIMEOUT (300 s) is inserted and the underlying resolve
is launched exactly once. -/
theorem dns_resolve_coalesce_spec (now launchResult : Int) (conn : Nat)
    (addr : String) (cache : DnsCache) (found : CachedResolve) :
    (dns_cache_lookup (purge_expired_resolves now cache) addr =
        some found →
     found.state = .pending →
     dns_resolve_impl now launchResult conn addr cache =
       some (.attachedPending,
             dns_cache_replace (purge_expired_resolves now cache) addr
               { found with
                 pendingConnections := conn :: found.pendingConnections },
             0)
     ∧ dns_cache_lookup
         (dns_cache_replace (purge_expired_resolves now cache) addr
           { found with
             pendingConnections := conn :: found.pendingConnections })
         addr =
         some { found with
                pendingConnections := conn :: found.pendingConnections })
    ∧ (dns_cache_lookup (purge_expired_resolves now cache) addr =
        Option.none →
       dns_resolve_impl now launchResult conn addr cache =
         some (.launchedNew launchResult,
               { address := addr, state := .pending,
                 pendingConnections := [conn],
                 expire := now + RESOLVE_MAX_TIMEOUT } ::
                 purge_expired_resolves now cache,
               1)
       ∧ RESOLVE_MAX_TIMEOUT = 300) := by
  constructor
  · intro hfind hpending
    have haddr : (found.address == addr) = true := by
      have h2 : List.find? (fun entry => entry.address == addr)
          (purge_expired_resolves now cache) = some found := hfind
      simpa using List.find?_some h2
    refine ⟨?_, ?_⟩
    · simp [dns_resolve_impl, hfind, hpending]
    · exact dns_cache_lookup_replace addr _ (by simpa using haddr)
        (purge_expired_resolves now cache) found hfind
  · intro hmiss
    exact ⟨by simp [dns_resolve_impl, hmiss], rfl⟩

/-- Witness for C9 at a concrete input: a second request for an address
already Pending is attached to the record and launches nothing. -/
theorem dns_resolve_coalesce_spec_witness :
    dns_resolve_impl 50 0 9 "example.invalid"
      [⟨"example.invalid", .pending, [5], 100⟩] =
      some (.attachedPending,
            dns_cache_replace
              (purge_expired_resolves 50
                [⟨"example.invalid", .pending, [5], 100⟩])
              "example.invalid"
              ⟨"example.invalid", .pending, [9, 5], 100⟩,
            0) :=
  ((dns_resolve_coalesce_spec 50 0 9 "example.invalid"
      [⟨"example.invalid", .pending, [5], 100⟩]
      ⟨"example.invalid", .pending, [5], 100⟩).1 (by decide) rfl).1

end Tor
